import Mathlib

/-!
Shallow embedding of the derived-metrics engine of `outcome-canada`
(`src/canada-data/fetch_minister_data.py` and `src/build_site.py`).

Conventions of the embedding:
* Python `float` values are modelled as exact rationals (`ℚ`);
* a Python function that may `return None` or raise inside a caught
  `try` block becomes a Lean function into `Option`;
* Python's negative-index list access `data[i]` becomes `pyGet`,
  where `none` models an `IndexError`;
* `datetime.strptime(s, "%Y-%m-%d")` followed by `(d1 - d2).days` is
  modelled by a `Date` structure (year/month/day) and the proleptic
  Gregorian ordinal, which is exactly `datetime.toordinal`.
-/

namespace Site

/-- Calendar date, the parsed form of a `"YYYY-MM-DD"` string. -/
structure Date where
  y : Nat
  m : Nat
  d : Nat
deriving DecidableEq, Repr

/-- Gregorian leap-year test, as in Python's `calendar.isleap`. -/
def isLeap (y : Nat) : Bool :=
  (y % 4 == 0 && y % 100 != 0) || y % 400 == 0

/-- Days before the first of month `m` in a non-leap/leap year. -/
def daysBeforeMonth (m : Nat) (leap : Bool) : Nat :=
  let base :=
    match m with
    | 1 => 0 | 2 => 31 | 3 => 59 | 4 => 90 | 5 => 120 | 6 => 151
    | 7 => 181 | 8 => 212 | 9 => 243 | 10 => 273 | 11 => 304 | _ => 334
  if leap && m > 2 then base + 1 else base

/-- Proleptic Gregorian ordinal of a date (Python `datetime.toordinal`). -/
def toOrdinal (dt : Date) : Nat :=
  let p := dt.y - 1
  365 * p + p / 4 - p / 100 + p / 400 + daysBeforeMonth dt.m (isLeap dt.y) + dt.d

/-- Signed day difference `(d1 - d2).days` between two parsed dates. -/
def daysDiff (d1 d2 : Date) : Int :=
  (toOrdinal d1 : Int) - (toOrdinal d2 : Int)

/-- One observation `{date, value}` of a fetched series. -/
structure Obs where
  date : Date
  value : ℚ
deriving DecidableEq, Repr

/-- Python list indexing `l[i]` with negative indices; `none` models
an `IndexError`. -/
def pyGet (l : List α) (i : Int) : Option α :=
  let j : Int := if i < 0 then (l.length : Int) + i else i
  if j < 0 then none else l.get? j.toNat

/-- Model of `all_data.get(vec_id)` followed by the falsy test
`if not data: return None`: missing key and empty list both give `none`. -/
def getData (all_data : String → Option (List Obs)) (id : String) : Option (List Obs) :=
  match all_data id with
  | some (o :: rest) => some (o :: rest)
  | _ => none

/-- Source `is_quarterly` (fetch_minister_data.py lines 64-70): `False`
for fewer than two points, otherwise day gap of the last two points > 60. -/
def is_quarterly (data : List Obs) : Bool :=
  match data.reverse with
  | o1 :: o2 :: _ => daysDiff o1.date o2.date > 60
  | _ => false

/-- Source `is_annual` (lines 73-79): `False` for fewer than two points,
otherwise day gap of the last two points > 300. -/
def is_annual (data : List Obs) : Bool :=
  match data.reverse with
  | o1 :: o2 :: _ => daysDiff o1.date o2.date > 300
  | _ => false

/-- Source `get_yoy_index` (lines 82-89). -/
def get_yoy_index (data : List Obs) : Option Int :=
  if is_annual data then (if 2 ≤ data.length then some (-2) else none)
  else if is_quarterly data then (if 5 ≤ data.length then some (-5) else none)
  else (if 13 ≤ data.length then some (-13) else none)

/-- The cadence the classifier branches of `get_yoy_index` distinguish. -/
inductive Cadence where
  | annual
  | quarterly
  | monthly
deriving DecidableEq, Repr

/-- Cadence classification implicit in the `is_annual` / `is_quarterly` /
else-monthly branch structure of `get_yoy_index`. -/
def classify (data : List Obs) : Cadence :=
  if is_annual data then .annual
  else if is_quarterly data then .quarterly
  else .monthly

/-- Two-digit zero-padded rendering of a month number. -/
def pad2 (n : Nat) : String :=
  if n < 10 then "0" ++ toString n else toString n

/-- Source `format_period` (lines 54-61): `"YYYY-MM"` for monthly data,
`"YYYY-Qn"` for quarterly data.  The string slicing of the source acts on
the parsed `Date` fields here. -/
def format_period (d : Date) (isQ : Bool) : String :=
  if isQ then
    toString d.y ++ "-Q" ++ toString ((d.m - 1) / 3 + 1)
  else
    toString d.y ++ "-" ++ pad2 d.m

/-- Round a rational to the nearest integer, ties to even (the rounding
of Python's `"%.1f"` applied to the exact value). -/
def rndHalfEven (q : ℚ) : Int :=
  let f := Int.floor q
  let r := q - f
  if r < 1/2 then f
  else if r > 1/2 then f + 1
  else if f % 2 = 0 then f else f + 1

/-- Rendering of `f"{x:.1f}"` for a rational. -/
def fmt1 (q : ℚ) : String :=
  let n := rndHalfEven (q * 10)
  let sgn := if n < 0 then "-" else ""
  let m := n.natAbs
  sgn ++ toString (m / 10) ++ "." ++ toString (m % 10)

/-- Source `format_detail` (lines 92-109): detail string and color for a
change value, given the unit ("pp" or "%") and the configured direction. -/
def format_detail (change : ℚ) (unit : String) (direction : String) : String × String :=
  let arrow := if change ≥ 0 then "↑" else "↓"
  let mag := fmt1 |change|
  let detail :=
    if unit = "pp" then arrow ++ " " ++ mag ++ " pp year over year"
    else arrow ++ " " ++ mag ++ "% year over year"
  let color :=
    if direction = "positive" then (if change ≥ 0 then "positive" else "negative")
    else if direction = "negative" then (if change ≤ 0 then "positive" else "negative")
    else "neutral"
  (detail, color)

/-- One entry of a metric's `vectors` list. -/
structure Vec where
  id : String
  label : String := ""
  role : Option String := none
deriving DecidableEq, Repr

/-- The fields of a `MINISTER_VECTOR_MAP` config entry that the compute
strategies read.  `config["format_value"].format` is modelled as an
abstract formatting function `fmt`; `config.get("scalar", 1)` becomes a
field with default 1. -/
structure Config where
  vectors : List Vec
  population_vectors : Option (List Vec) := none
  direction : String
  scalar : ℚ := 1
  fmt : ℚ → String

/-- The `latest` block a compute strategy returns. -/
structure Latest where
  value : String
  detail : String
  detail_color : String
  period : String
deriving DecidableEq, Repr

/-- Source `compute_level_yoy_pct` (lines 138-164).  Note line 154: a zero
lookback value makes `pct_change` fall back to `0`, it does not suppress
the comparison. -/
def compute_level_yoy_pct (config : Config) (all_data : String → Option (List Obs)) : Option Latest :=
  match config.vectors.head? with
  | none => none
  | some vec =>
    match getData all_data vec.id with
    | none => none
    | some data =>
      if data.length < 2 then none
      else
        match pyGet data (-1) with
        | none => none
        | some lastO =>
          let latest_val := lastO.value
          let display_val := latest_val / config.scalar
          match get_yoy_index data with
          | none => none
          | some yoy_idx =>
            match pyGet data yoy_idx with
            | none => none
            | some yoyO =>
              let yoy_val := yoyO.value
              let pct_change := if yoy_val ≠ 0 then ((latest_val / yoy_val) - 1) * 100 else 0
              let dc := format_detail pct_change "%" config.direction
              let period :=
                if is_annual data then toString lastO.date.y
                else format_period lastO.date (is_quarterly data)
              some ⟨config.fmt display_val, dc.1, dc.2, period⟩

/-- Source `compute_rate_yoy_pp` (lines 112-135). -/
def compute_rate_yoy_pp (config : Config) (all_data : String → Option (List Obs)) : Option Latest :=
  match config.vectors.head? with
  | none => none
  | some vec =>
    match getData all_data vec.id with
    | none => none
    | some data =>
      if data.length < 2 then none
      else
        match pyGet data (-1) with
        | none => none
        | some lastO =>
          match get_yoy_index data with
          | none => none
          | some yoy_idx =>
            match pyGet data yoy_idx with
            | none => none
            | some yoyO =>
              let pp_change := lastO.value - yoyO.value
              let dc := format_detail pp_change "pp" config.direction
              let period :=
                if is_annual data then toString lastO.date.y
                else format_period lastO.date (is_quarterly data)
              some ⟨config.fmt lastO.value, dc.1, dc.2, period⟩

/-- Source `compute_level_qoq_pct` (lines 167-199): quarter-over-quarter
change, with the same zero-previous fallback to 0 growth. -/
def compute_level_qoq_pct (config : Config) (all_data : String → Option (List Obs)) : Option Latest :=
  match config.vectors.head? with
  | none => none
  | some vec =>
    match getData all_data vec.id with
    | none => none
    | some data =>
      if data.length < 2 then none
      else
        match pyGet data (-1), pyGet data (-2) with
        | some lastO, some prevO =>
          let latest_val := lastO.value
          let display_val := latest_val / config.scalar
          let prev_val := prevO.value
          let pct_change := if prev_val ≠ 0 then ((latest_val / prev_val) - 1) * 100 else 0
          let color :=
            if config.direction = "positive" then (if pct_change ≥ 0 then "positive" else "negative")
            else if config.direction = "negative" then (if pct_change ≤ 0 then "positive" else "negative")
            else "neutral"
          let arrow := if pct_change ≥ 0 then "↑" else "↓"
          let detail := arrow ++ " " ++ fmt1 |pct_change| ++ "% quarter over quarter"
          some ⟨config.fmt display_val, detail, color, format_period lastO.date true⟩
        | _, _ => none

/-- Source `compute_count_yoy_pct` (lines 202-204): an alias of
`compute_level_yoy_pct`. -/
def compute_count_yoy_pct (config : Config) (all_data : String → Option (List Obs)) : Option Latest :=
  compute_level_yoy_pct config all_data

/-- The label-scanning loop of `compute_share_pct` / `compute_wage_gap`:
successive assignments leave the id of the last vector carrying the label. -/
def lastLabeled (vecs : List Vec) (label : String) : Option String :=
  vecs.foldl (fun acc v => if v.label = label then some v.id else acc) none

/-- `all_data.get(key)` when the key itself may be `None`, followed by the
falsy test on the looked-up list. -/
def lookupData (all_data : String → Option (List Obs)) (key : Option String) : Option (List Obs) :=
  match key with
  | none => none
  | some k => getData all_data k

/-- The "# YoY" block of `compute_share_pct` (lines 230-239): the detail
and color pair, `none` modelling an index error inside the guarded
access (unreachable on the source's guards). -/
def share_yoy_detail (direction : String) (total_data us_data : List Obs)
    (share : ℚ) : Option (String × String) :=
  match get_yoy_index total_data with
  | some yoy_idx =>
    if yoy_idx.natAbs ≤ us_data.length then
      match pyGet total_data yoy_idx, pyGet us_data yoy_idx with
      | some prevT, some prevU =>
        let prev_share := if prevT.value ≠ 0 then (1 - prevU.value / prevT.value) * 100 else 0
        some (format_detail (share - prev_share) "pp" direction)
      | _, _ => none
    else some ("", "neutral")
  | none => some ("", "neutral")

/-- Source `compute_share_pct` (lines 207-248). -/
def compute_share_pct (config : Config) (all_data : String → Option (List Obs)) : Option Latest :=
  let total_vec := lastLabeled config.vectors "total_exports"
  let us_vec := lastLabeled config.vectors "us_exports"
  match lookupData all_data total_vec, lookupData all_data us_vec with
  | some total_data, some us_data =>
    match pyGet total_data (-1), pyGet us_data (-1) with
    | some lastT, some lastU =>
      if lastT.value = 0 then none
      else
        let share := (1 - lastU.value / lastT.value) * 100
        match share_yoy_detail config.direction total_data us_data share with
        | none => none
        | some dc =>
          some ⟨config.fmt share, dc.1, dc.2, format_period lastT.date (is_quarterly total_data)⟩
    | _, _ => none
  | _, _ => none

/-- The "# YoY" block of `compute_wage_gap` (lines 273-282). -/
def wage_yoy_detail (direction : String) (male_data female_data : List Obs)
    (gap : ℚ) : Option (String × String) :=
  match get_yoy_index male_data with
  | some yoy_idx =>
    if yoy_idx.natAbs ≤ female_data.length then
      match pyGet male_data yoy_idx, pyGet female_data yoy_idx with
      | some prevM, some prevF =>
        let prev_gap := if prevM.value ≠ 0 then ((prevM.value - prevF.value) / prevM.value) * 100 else 0
        some (format_detail (gap - prev_gap) "pp" direction)
      | _, _ => none
    else some ("", "neutral")
  | none => some ("", "neutral")

/-- Source `compute_wage_gap` (lines 251-291). -/
def compute_wage_gap (config : Config) (all_data : String → Option (List Obs)) : Option Latest :=
  let male_vec := lastLabeled config.vectors "male_wage"
  let female_vec := lastLabeled config.vectors "female_wage"
  match lookupData all_data male_vec, lookupData all_data female_vec with
  | some male_data, some female_data =>
    match pyGet male_data (-1), pyGet female_data (-1) with
    | some lastM, some lastF =>
      if lastM.value = 0 then none
      else
        let gap := ((lastM.value - lastF.value) / lastM.value) * 100
        match wage_yoy_detail config.direction male_data female_data gap with
        | none => none
        | some dc =>
          let period :=
            if is_annual male_data then toString lastM.date.y
            else format_period lastM.date false
          some ⟨config.fmt gap, dc.1, dc.2, period⟩
    | _, _ => none
  | _, _ => none

/-- Latest values of a vector list, in order: the
`for v in config["vectors"]: ... values.append(data[-1]["value"])` loop,
returning `none` as soon as one lookup is missing or empty. -/
def latestVals (vecs : List Vec) (all_data : String → Option (List Obs)) : Option (List ℚ) :=
  match vecs with
  | [] => some []
  | v :: rest =>
    match getData all_data v.id with
    | none => none
    | some data =>
      match pyGet data (-1) with
      | none => none
      | some o => (latestVals rest all_data).map (o.value :: ·)

/-- Year-ago values of a vector list at a shared index `idx`: the
`if data and len(data) >= abs(yoy_idx)` guarded loop, returning `none`
(the `ok = False` / `prev_values = None` path) on the first failure. -/
def prevVals (vecs : List Vec) (all_data : String → Option (List Obs)) (idx : Int) : Option (List ℚ) :=
  match vecs with
  | [] => some []
  | v :: rest =>
    match all_data v.id with
    | none => none
    | some data =>
      if data ≠ [] ∧ idx.natAbs ≤ data.length then
        match pyGet data idx with
        | none => none
        | some o => (prevVals rest all_data idx).map (o.value :: ·)
      else none

/-- `sum(v * w for v, w in zip(values, weights))`. -/
def dotZip (values weights : List ℚ) : ℚ :=
  (List.zipWith (· * ·) values weights).sum

/-- Source `compute_composite_avg` (lines 294-351).  The lookback index is
computed once from the first vector's data and applied to every vector. -/
def compute_composite_avg (config : Config) (all_data : String → Option (List Obs)) : Option Latest :=
  match latestVals config.vectors all_data with
  | none => none
  | some values =>
    let weightsO : Option (List ℚ) :=
      match config.population_vectors with
      | some pvs => latestVals pvs all_data
      | none => some (List.replicate values.length 1)
    match weightsO with
    | none => none
    | some weights =>
      let total_weight := weights.sum
      if total_weight = 0 then none
      else
        let avg := dotZip values weights / total_weight
        match config.vectors.head? with
        | none => none
        | some v0 =>
          match getData all_data v0.id with
          | none => none
          | some ref_data =>
            let dc :=
              match get_yoy_index ref_data with
              | some yoy_idx =>
                match prevVals config.vectors all_data yoy_idx with
                | some prev_values =>
                  if prev_values ≠ [] then
                    let prev_avg := dotZip prev_values weights / total_weight
                    format_detail (avg - prev_avg) "pp" config.direction
                  else ("", "neutral")
                | none => ("", "neutral")
              | none => ("", "neutral")
            match pyGet ref_data (-1) with
            | none => none
            | some lastR =>
              some ⟨config.fmt avg, dc.1, dc.2, format_period lastR.date (is_quarterly ref_data)⟩

/-- Source `compute_sum_yoy_pct` (lines 354-390).  Note the truthiness
test `if prev_total and prev_total != 0`: a zero year-ago sum yields the
empty comparison, not a 0-growth value. -/
def compute_sum_yoy_pct (config : Config) (all_data : String → Option (List Obs)) : Option Latest :=
  match latestVals config.vectors all_data with
  | none => none
  | some values =>
    let total := values.sum
    match config.vectors.head? with
    | none => none
    | some v0 =>
      match getData all_data v0.id with
      | none => none
      | some ref_data =>
        let dc :=
          match get_yoy_index ref_data with
          | some yoy_idx =>
            match prevVals config.vectors all_data yoy_idx with
            | some prev_values =>
              let prev_total := prev_values.sum
              if prev_total ≠ 0 then
                format_detail ((total / prev_total - 1) * 100) "%" config.direction
              else ("", "neutral")
            | none => ("", "neutral")
          | none => ("", "neutral")
        match pyGet ref_data (-1) with
        | none => none
        | some lastR =>
          some ⟨config.fmt total, dc.1, dc.2, format_period lastR.date (is_quarterly ref_data)⟩

/-- Source `compute_combined_rate` (lines 393-460). -/
def compute_combined_rate (config : Config) (all_data : String → Option (List Obs)) : Option Latest :=
  let num_vecs := config.vectors.filter (fun v => v.role = some "numerator")
  let den_vecs := config.vectors.filter (fun v => v.role = some "denominator")
  if num_vecs = [] ∨ den_vecs = [] then none
  else
    match latestVals num_vecs all_data, latestVals den_vecs all_data with
    | some nums, some dens =>
      let num_total := nums.sum
      let den_total := dens.sum
      if den_total = 0 then none
      else
        let rate := (num_total / den_total) * 100
        match num_vecs.head? with
        | none => none
        | some v0 =>
          match getData all_data v0.id with
          | none => none
          | some ref_data =>
            let dc :=
              match get_yoy_index ref_data with
              | some yoy_idx =>
                match prevVals num_vecs all_data yoy_idx, prevVals den_vecs all_data yoy_idx with
                | some prevNums, some prevDens =>
                  let prev_num := prevNums.sum
                  let prev_den := prevDens.sum
                  if prev_den ≠ 0 then
                    format_detail (rate - (prev_num / prev_den) * 100) "pp" config.direction
                  else ("", "neutral")
                | _, _ => ("", "neutral")
              | none => ("", "neutral")
            match pyGet ref_data (-1) with
            | none => none
            | some lastR =>
              some ⟨config.fmt rate, dc.1, dc.2, format_period lastR.date (is_quarterly ref_data)⟩
    | _, _ => none

/-- One element of the `vectorDataPoint` array of a WDS API response. -/
structure ApiPoint where
  refPer : Option String := none
  value : Option ℚ := none
deriving DecidableEq, Repr

/-- The `object` member of a WDS API response entry. -/
structure ApiObject where
  vectorDataPoint : List ApiPoint := []
deriving DecidableEq, Repr

/-- One entry of the JSON array a WDS API response decodes to. -/
structure ApiEntry where
  status : Option String := none
  obj : Option ApiObject := none
deriving DecidableEq, Repr

/-- Outcome of one `requests.post` attempt inside `fetch_vector`:
either the call raises (`exn`, e.g. a timeout), or it returns a response
with a status code and a body; `body = none` models `resp.json()`
raising inside the same `try` block. -/
inductive ApiAttempt where
  | exn
  | resp (status_code : Nat) (body : Option (List ApiEntry))
deriving DecidableEq, Repr

/-- An observation as built by `fetch_vector`: the raw `refPer` string
and the value. -/
structure SObs where
  date : String
  value : ℚ
deriving DecidableEq, Repr

/-- Strict lexicographic order on character lists (the order Python
string comparison uses, restated structurally). -/
def chLt : List Char → List Char → Bool
  | [], [] => false
  | [], _ :: _ => true
  | _ :: _, [] => false
  | a :: as, b :: bs => a.toNat < b.toNat || (a = b && chLt as bs)

/-- String `≤` as the negation of the reversed strict order. -/
def strLe (a b : String) : Bool := !(chLt b.data a.data)

/-- Insert an observation into a date-sorted list, before any later
element with an equal date. -/
def insByDate (o : SObs) : List SObs → List SObs
  | [] => [o]
  | x :: xs => if strLe o.date x.date then o :: x :: xs else x :: insByDate o xs

/-- `data.sort(key=lambda x: x["date"])` as a stable insertion sort. -/
def sortByDate (l : List SObs) : List SObs :=
  l.foldr insByDate []

/-- What one loop iteration of `fetch_vector` (lines 24-49) does with the
attempt's outcome: `none` means "print, sleep 5 s, go to next attempt"
(non-200 status or a caught exception); `some r` means the function
returns `r` from inside the loop. -/
def attemptResult (a : ApiAttempt) : Option (Option (List SObs)) :=
  match a with
  | .exn => none
  | .resp code body =>
    if code ≠ 200 then none
    else
      match body with
      | none => none
      | some result =>
        match result with
        | [] => some none
        | entry :: _ =>
          if entry.status = some "FAILED" then some none
          else
            let points := (entry.obj.map ApiObject.vectorDataPoint).getD []
            let data := points.filterMap (fun p =>
              match p.refPer, p.value with
              | some ref, some v => if ref ≠ "" then some (⟨ref, v⟩ : SObs) else none
              | _, _ => none)
            let sorted := sortByDate data
            some (if sorted = [] then none else some sorted)

/-- The `for attempt in range(3)` loop of `fetch_vector`: `fuel` is the
number of remaining iterations, `k` the current attempt index, `sleeps`
the number of 5-second delays already elapsed.  The pair returned is
(result of the function, number of 5-second delays slept). -/
def fvLoop (oracle : Nat → ApiAttempt) : Nat → Nat → Nat → Option (List SObs) × Nat
  | 0, _, sleeps => (none, sleeps)
  | fuel + 1, k, sleeps =>
    match attemptResult (oracle k) with
    | some r => (r, sleeps)
    | none => fvLoop oracle fuel (k + 1) (sleeps + 1)

/-- Source `fetch_vector` (lines 19-51), abstracted over the outcome of
each network attempt.  Returns the fetched series (or `none`) together
with the number of 5-second retry delays taken. -/
def fetch_vector (oracle : Nat → ApiAttempt) : Option (List SObs) × Nat :=
  fvLoop oracle 3 0 0

/-- One row of `official_data.csv` as produced by `csv.DictReader`:
either field may be missing. -/
structure CsvRow where
  date : Option String := none
  value : Option String := none
deriving DecidableEq, Repr

/-- Whitespace test for the model of Python `str.strip()`. -/
def isSpaceChar (c : Char) : Bool :=
  (c = ' ') || (c = '\t') || (c = '\n') || (c = '\r')

/-- Drop leading whitespace from a character list. -/
def dropSpace : List Char → List Char
  | [] => []
  | c :: cs => if isSpaceChar c then dropSpace cs else c :: cs

/-- Strip whitespace from both ends of a character list. -/
def trimChars (cs : List Char) : List Char :=
  ((dropSpace (dropSpace cs).reverse)).reverse

/-- Model of Python `str.strip()`. -/
def pyStrip (s : String) : String := ⟨trimChars s.data⟩

/-- Split a character list at every `'.'` (the shape `List.splitOn` has,
restated structurally). -/
def splitDot : List Char → List (List Char)
  | [] => [[]]
  | c :: cs =>
    if c = '.' then [] :: splitDot cs
    else
      match splitDot cs with
      | [] => [[c]]
      | p :: ps => (c :: p) :: ps

/-- Digit-string accumulator for `pyFloat`; `none` on a non-digit. -/
def digitsAux : List Char → Nat → Option Nat
  | [], acc => some acc
  | c :: cs, acc =>
    if c.isDigit then digitsAux cs (acc * 10 + (c.toNat - 48)) else none

/-- Model of Python `int(s)` on the digit strings the period slicing
produces; `none` is a `ValueError`. -/
def natParse (cs : List Char) : Option Nat :=
  if cs = [] then none else digitsAux cs 0

/-- Model of Python `float(s)` on the decimal strings occurring in the
data files: optional surrounding whitespace, optional sign, integer
digits, optional fractional digits (at least one digit overall);
anything else is a `ValueError` (`none`).  Exponent/`inf`/`nan` forms
are not produced by the CSV inputs and map to `none`. -/
def pyFloat (s : String) : Option ℚ :=
  let cs := trimChars s.data
  let neg : Bool := cs.head? = some '-'
  let cs := match cs with
    | '-' :: rest => rest
    | '+' :: rest => rest
    | _ => cs
  let mag : Option ℚ :=
    match splitDot cs with
    | [ip] =>
      if ip.isEmpty then none
      else (digitsAux ip 0).map (fun n => (n : ℚ))
    | [ip, fp] =>
      if ip.isEmpty && fp.isEmpty then none
      else
        match digitsAux ip 0, digitsAux fp 0 with
        | some a, some b => some ((a : ℚ) + (b : ℚ) / (10 ^ fp.length : ℚ))
        | _, _ => none
    | _ => none
  mag.map (fun q => if neg then -q else q)

/-- The row filter of `read_official_data` (line 345):
`if row.get('value') and row['value'].strip()`. -/
def rowKept (row : CsvRow) : Bool :=
  match row.value with
  | some s => s ≠ "" && pyStrip s ≠ ""
  | none => false

/-- `float(rows[i]['value'])`: list access, key access and parse, any
failure modelling the exception caught at line 466. -/
def rowFloat (rows : List CsvRow) (i : Int) : Option ℚ :=
  ((pyGet rows i).bind CsvRow.value).bind pyFloat

/-- The two config fields of an indicator that `read_official_data`
reads. -/
structure Indicator where
  frequency : String
  unit : String
deriving DecidableEq, Repr

/-- The result dictionary of `read_official_data`, restricted to the keys
shared by all its return branches (`date`, `period`, `value`,
`secondary`, `absolute`); branch-specific extra keys duplicate one of
these values and are not modelled. -/
structure OffResult where
  date : String
  period : String
  value : Option ℚ
  secondary : Option ℚ
  absolute : ℚ
deriving DecidableEq, Repr

/-- Naive character-list infix search used to model Python's
`"C$" in unit` test. -/
def matchesAt : List Char → List Char → Bool
  | [], _ => true
  | _ :: _, [] => false
  | a :: as, b :: bs => a = b && matchesAt as bs

/-- Whether `pat` occurs as a contiguous substring of `hay`. -/
def hasSub (pat : List Char) : List Char → Bool
  | [] => matchesAt pat []
  | c :: rest => matchesAt pat (c :: rest) || hasSub pat rest

/-- Python `pat in hay` on strings. -/
def strIn (pat hay : String) : Bool :=
  hasSub pat.data hay.data

/-- Model of Python `str.lower()`. -/
def pyLower (s : String) : String := ⟨s.data.map Char.toLower⟩

/-- Quarterly branch of `read_official_data` (lines 360-396). -/
def officialQuarterly (indicator : Indicator) (rows : List CsvRow)
    (latest_value : ℚ) (latest_date : String) : Option OffResult :=
  match natParse ((latest_date.data.drop 5).take 2) with
  | none => none
  | some mo =>
    let period := (⟨latest_date.data.take 4⟩ : String) ++ "-Q" ++
      toString (((mo : Int) - 1).fdiv 3 + 1)
    let qoqO : Option (Option ℚ) :=
      if 2 ≤ rows.length then
        (rowFloat rows (-2)).map (fun prev =>
          some (if prev ≠ 0 then ((latest_value / prev) - 1) * 100 else 0))
      else some none
    match qoqO with
    | none => none
    | some qoq_growth =>
      let yoyO : Option (Option ℚ) :=
        if 5 ≤ rows.length then
          (rowFloat rows (-5)).map (fun ya =>
            some (if ya ≠ 0 then ((latest_value / ya) - 1) * 100 else 0))
        else some none
      match yoyO with
      | none => none
      | some yoy_growth =>
        if strIn "C$" indicator.unit || strIn "dollars" (pyLower indicator.unit) then
          some ⟨latest_date, period, some latest_value, yoy_growth, latest_value⟩
        else
          some ⟨latest_date, period,
            (match yoy_growth with | some y => some y | none => qoq_growth),
            qoq_growth, latest_value⟩

/-- Monthly/Daily branch of `read_official_data` (lines 397-465). -/
def officialMonthly (indicator : Indicator) (rows : List CsvRow)
    (latest_value : ℚ) (latest_date : String) : Option OffResult :=
  let is_daily := indicator.frequency = "Daily"
  let period := if is_daily then latest_date else (⟨latest_date.data.take 7⟩ : String)
  let yoy_lookback : Nat := if is_daily then 260 else 13
  let momO : Option (Option ℚ × Option ℚ) :=
    if 2 ≤ rows.length then
      (rowFloat rows (-2)).map (fun prev =>
        let mom_growth := if prev ≠ 0 then ((latest_value / prev) - 1) * 100 else 0
        let mom_annualized :=
          if ¬is_daily then some (((1 + mom_growth / 100) ^ (12 : ℕ) - 1) * 100) else none
        (some mom_growth, mom_annualized))
    else some (none, none)
  match momO with
  | none => none
  | some (_, mom_annualized) =>
    let yoyO : Option (Option ℚ × Option ℚ) :=
      if yoy_lookback ≤ rows.length then
        (rowFloat rows (-(yoy_lookback : Int))).map (fun ya =>
          (some (if ya ≠ 0 then ((latest_value / ya) - 1) * 100 else 0),
           some (latest_value - ya)))
      else some (none, none)
    match yoyO with
    | none => none
    | some (yoy_growth, yoy_pp_change) =>
      if indicator.unit = "%" then
        some ⟨latest_date, period, some latest_value, yoy_pp_change, latest_value⟩
      else if indicator.unit = "C$ millions" then
        let mcO : Option (Option ℚ) :=
          if 2 ≤ rows.length then
            (rowFloat rows (-2)).map (fun p => some (latest_value - p))
          else some none
        match mcO with
        | none => none
        | some monthly_change =>
          let ycO : Option (Option ℚ) :=
            if 13 ≤ rows.length then
              (rowFloat rows (-13)).map (fun p => some (latest_value - p))
            else some none
          match ycO with
          | none => none
          | some _ =>
            some ⟨latest_date, period, some latest_value, monthly_change, latest_value⟩
      else if strIn "C$" indicator.unit || strIn "dollars" (pyLower indicator.unit) then
        some ⟨latest_date, period, some latest_value, yoy_growth, latest_value⟩
      else
        some ⟨latest_date, period, yoy_growth, mom_annualized, latest_value⟩

/-- Source `read_official_data` (build_site.py lines 332-468), taking the
parsed CSV rows.  Rows whose `value` field is missing or whitespace-blank
are filtered out up front (line 345); every exception inside the `try`
block (a non-numeric value or a missing `date` key reached by the
computation) is caught at line 466 and turns the whole call into `none`. -/
def read_official_data (indicator : Indicator) (rowsIn : List CsvRow) : Option OffResult :=
  let rows := rowsIn.filter rowKept
  match pyGet rows (-1) with
  | none => none
  | some latest =>
    match latest.value with
    | none => none
    | some lvs =>
      match pyFloat lvs with
      | none => none
      | some latest_value =>
        match latest.date with
        | none => none
        | some latest_date =>
          if indicator.frequency = "Quarterly" then
            officialQuarterly indicator rows latest_value latest_date
          else
            officialMonthly indicator rows latest_value latest_date

/-- A `{date, value}` chart row. -/
structure ChartObs where
  date : String
  value : ℚ
deriving DecidableEq, Repr

/-- The per-row body of the `read_chart_history` loop (build_site.py
lines 482-489): a row yields an observation only when its date is present
and non-empty, its value is present and non-blank, and the value parses
as a float; a `ValueError` (`none`) skips just that row. -/
def chartRow (row : CsvRow) : Option ChartObs :=
  let date_str := row.date.getD ""
  let val_str := row.value.getD ""
  if date_str ≠ "" ∧ val_str ≠ "" ∧ pyStrip val_str ≠ "" then
    (pyFloat val_str).map (fun v => (⟨date_str, v⟩ : ChartObs))
  else none

/-- Source `read_chart_history` (build_site.py lines 471-491), taking the
parsed CSV rows. -/
def read_chart_history (rowsIn : List CsvRow) : List ChartObs :=
  rowsIn.filterMap chartRow

/-- `positive_growth_indicators` of `get_change_sentiment`. -/
def positive_growth_indicators : List String :=
  ["gdp", "gdp_percapita", "employment_rate", "participation_rate",
   "wages", "housing_starts", "trade", "exports", "retail",
   "manufacturing", "business_investment"]

/-- `negative_growth_indicators` of `get_change_sentiment`. -/
def negative_growth_indicators : List String :=
  ["unemployment", "ei", "inflation", "cpi_shelter", "cpi_food", "cpi_transport"]

/-- `neutral_indicators` of `get_change_sentiment`. -/
def neutral_indicators : List String :=
  ["population", "immigration", "emigration", "policy_rate", "bond_5y", "bond_10y",
   "hours_worked", "jobvacancy", "housing", "imports"]

/-- Source `get_change_sentiment` (build_site.py lines 1224-1260).  Note
`is_increase = change_value > 0`: a change of exactly zero is treated as
a non-increase. -/
def get_change_sentiment (indicator_key : String) (change_value : Option ℚ) : String :=
  match change_value with
  | none => "neutral"
  | some cv =>
    let is_increase := cv > 0
    if positive_growth_indicators.contains indicator_key then
      (if is_increase then "positive" else "negative")
    else if negative_growth_indicators.contains indicator_key then
      (if is_increase then "negative" else "positive")
    else if neutral_indicators.contains indicator_key then "neutral"
    else (if is_increase then "positive" else "negative")

/-! Concrete fixtures for the witnesses and counterexamples below. -/

/-- Thirteen consecutive first-of-month dates, 2024-12-01 .. 2025-12-01. -/
def monthDates : List Date :=
  [⟨2024,12,1⟩, ⟨2025,1,1⟩, ⟨2025,2,1⟩, ⟨2025,3,1⟩, ⟨2025,4,1⟩, ⟨2025,5,1⟩,
   ⟨2025,6,1⟩, ⟨2025,7,1⟩, ⟨2025,8,1⟩, ⟨2025,9,1⟩, ⟨2025,10,1⟩, ⟨2025,11,1⟩,
   ⟨2025,12,1⟩]

/-- Thirteen consecutive first-of-quarter dates, 2022-10-01 .. 2025-10-01. -/
def quarterDates : List Date :=
  [⟨2022,10,1⟩, ⟨2023,1,1⟩, ⟨2023,4,1⟩, ⟨2023,7,1⟩, ⟨2023,10,1⟩, ⟨2024,1,1⟩,
   ⟨2024,4,1⟩, ⟨2024,7,1⟩, ⟨2024,10,1⟩, ⟨2025,1,1⟩, ⟨2025,4,1⟩, ⟨2025,7,1⟩,
   ⟨2025,10,1⟩]

/-- Pair dates with values to make a series. -/
def mkSeries (dates : List Date) (vals : List ℚ) : List Obs :=
  List.zipWith (fun d v => (⟨d, v⟩ : Obs)) dates vals

/-- Monthly series whose 13th-from-last value is zero and latest is 5. -/
def zeroLookbackData : List Obs :=
  mkSeries monthDates [0, 1, 1, 1, 1, 1, 1, 1, 1, 1, 1, 1, 5]

/-- Monthly series with no zero values, latest 2, 13th-from-last 1. -/
def noZeroData : List Obs :=
  mkSeries monthDates [1, 1, 1, 1, 1, 1, 1, 1, 1, 1, 1, 1, 2]

/-- A single-vector config with direction "positive" and `toString`
formatting. -/
def cfgOne : Config :=
  { vectors := [⟨"v1", "", none⟩], direction := "positive", fmt := fun _ => "" }

/-- A one-key series lookup. -/
def adOf (id : String) (data : List Obs) : String → Option (List Obs) :=
  fun s => if s = id then some data else none

/-- Lookup serving `zeroLookbackData` under "v1". -/
def adZero : String → Option (List Obs) := adOf "v1" zeroLookbackData

/-- Lookup serving `noZeroData` under "v1". -/
def adNoZero : String → Option (List Obs) := adOf "v1" noZeroData

/-- Two observations 400 days apart (2024-01-01, 2025-02-04). -/
def pairAnnual : List Obs := [⟨⟨2024,1,1⟩, 1⟩, ⟨⟨2025,2,4⟩, 2⟩]

/-- Two observations 90 days apart (2025-01-01, 2025-04-01). -/
def pairQuarterly : List Obs := [⟨⟨2025,1,1⟩, 1⟩, ⟨⟨2025,4,1⟩, 2⟩]

/-- Two observations 30 days apart (2025-11-01, 2025-12-01). -/
def pairMonthly : List Obs := [⟨⟨2025,11,1⟩, 1⟩, ⟨⟨2025,12,1⟩, 2⟩]

/-- A well-formed successful API attempt carrying two data points. -/
def goodAttempt : ApiAttempt :=
  .resp 200 (some [{ status := some "SUCCESS",
                     obj := some ⟨[⟨some "2025-01-01", some 1⟩, ⟨some "2025-02-01", some 2⟩]⟩ }])

/-- The series `goodAttempt` decodes to. -/
def goodSeries : List SObs := [⟨"2025-01-01", 1⟩, ⟨"2025-02-01", 2⟩]

/-- An HTTP-200 attempt whose body carries a structured FAILED status. -/
def failedAttempt : ApiAttempt := .resp 200 (some [{ status := some "FAILED" }])

/-- Oracle: structured FAILED on the first attempt, success afterwards. -/
def oracleFailedFirst : Nat → ApiAttempt :=
  fun k => if k = 0 then failedAttempt else goodAttempt

/-- Oracle: network exceptions on the first two attempts, success on the
third. -/
def oracleThirdOk : Nat → ApiAttempt :=
  fun k => if k < 2 then .exn else goodAttempt

/-- Combined-rate config: three numerator and three denominator vectors. -/
def cfgCombined : Config :=
  { vectors := [⟨"n1", "", some "numerator"⟩, ⟨"n2", "", some "numerator"⟩,
                ⟨"n3", "", some "numerator"⟩, ⟨"d1", "", some "denominator"⟩,
                ⟨"d2", "", some "denominator"⟩, ⟨"d3", "", some "denominator"⟩],
    direction := "positive", fmt := fun _ => "" }

/-- A one-observation series dated 2025-12-01. -/
def oneObs (v : ℚ) : List Obs := [⟨⟨2025,12,1⟩, v⟩]

/-- Lookup for the combined-rate example: numerator latests 10, 5, 2 and
denominator latests 50, 25, 10. -/
def adCombined : String → Option (List Obs) := fun s =>
  if s = "n1" then some (oneObs 10)
  else if s = "n2" then some (oneObs 5)
  else if s = "n3" then some (oneObs 2)
  else if s = "d1" then some (oneObs 50)
  else if s = "d2" then some (oneObs 25)
  else if s = "d3" then some (oneObs 10)
  else none

/-- Composite config over a monthly vector "w1" and a quarterly vector
"w2", no population weights. -/
def cfgComposite : Config :=
  { vectors := [⟨"w1", "", none⟩, ⟨"w2", "", none⟩],
    direction := "positive", fmt := fun _ => "" }

/-- Monthly reference series for the composite example: constant 10. -/
def w1Data : List Obs :=
  mkSeries monthDates [10, 10, 10, 10, 10, 10, 10, 10, 10, 10, 10, 10, 10]

/-- Quarterly series for the composite example: 13th-from-last 0,
5th-from-last 4, latest 8. -/
def w2Data : List Obs :=
  mkSeries quarterDates [0, 1, 1, 1, 1, 1, 1, 1, 4, 1, 1, 1, 8]

/-- Lookup for the composite example. -/
def adComposite : String → Option (List Obs) := fun s =>
  if s = "w1" then some w1Data
  else if s = "w2" then some w2Data
  else none

/-- Share config with the two labelled vectors of `compute_share_pct`. -/
def cfgShare : Config :=
  { vectors := [⟨"t1", "total_exports", none⟩, ⟨"u1", "us_exports", none⟩],
    direction := "positive", fmt := fun _ => "" }

/-- Two-observation monthly series (no year-ago lookback available). -/
def shortData (a b : ℚ) : List Obs :=
  [⟨⟨2025,11,1⟩, a⟩, ⟨⟨2025,12,1⟩, b⟩]

/-- Lookup for the share example: total latest 200, US latest 150, both
series too short for any lookback. -/
def adShare : String → Option (List Obs) := fun s =>
  if s = "t1" then some (shortData 180 200)
  else if s = "u1" then some (shortData 140 150)
  else none

/-- Monthly rate indicator, as for the unemployment rate. -/
def indRate : Indicator := ⟨"Monthly", "%"⟩

/-- CSV rows whose middle row carries a non-numeric value. -/
def rowsBadMiddle : List CsvRow :=
  [⟨some "2025-10-01", some "5"⟩, ⟨some "2025-11-01", some "abc"⟩,
   ⟨some "2025-12-01", some "6"⟩]

/-- The same rows with the malformed row removed. -/
def rowsGood : List CsvRow :=
  [⟨some "2025-10-01", some "5"⟩, ⟨some "2025-12-01", some "6"⟩]

/-- CSV rows whose latest value is non-numeric. -/
def rowsBadLatest : List CsvRow :=
  [⟨some "2025-11-01", some "1"⟩, ⟨some "2025-12-01", some "abc"⟩]

/-! Helper lemmas. -/

/-- A value read by Python indexing is a member of the list. -/
theorem pyGet_mem {α : Type} {l : List α} {i : Int} {a : α}
    (h : pyGet l i = some a) : a ∈ l := by
  unfold pyGet at h
  dsimp only at h
  split at h
  · split at h
    · exact Option.noConfusion h
    · exact List.get?_mem h
  · exact List.get?_mem h

/-- Negative Python indexing succeeds when the list is long enough. -/
theorem pyGet_isSome_of {α : Type} (l : List α) (i : Int)
    (h1 : i < 0) (h2 : i.natAbs ≤ l.length) : (pyGet l i).isSome := by
  unfold pyGet
  dsimp only
  rw [if_pos h1, if_neg (by omega)]
  rw [Option.isSome_iff_ne_none]
  intro hc
  rw [List.get?_eq_none] at hc
  omega

/-- Inversion of a successful negative index. -/
theorem pyGet_some_of {α : Type} (l : List α) (i : Int)
    (h1 : i < 0) (h2 : i.natAbs ≤ l.length) : ∃ a, pyGet l i = some a := by
  have := pyGet_isSome_of l i h1 h2
  exact Option.isSome_iff_exists.mp this

/-- `getData` only succeeds on a non-empty stored list. -/
theorem getData_some {ad : String → Option (List Obs)} {id : String} {data : List Obs}
    (h : getData ad id = some data) : data ≠ [] ∧ ad id = some data := by
  unfold getData at h
  split at h
  · rename_i o rest heq
    injection h with h2
    subst h2
    exact ⟨by simp, heq⟩
  · exact Option.noConfusion h

/-- A nonempty string stays nonempty when extended on the right. -/
theorem append_ne_empty_left (a b : String) (ha : a ≠ "") : a ++ b ≠ "" := by
  intro h
  apply ha
  have hl := congrArg String.length h
  rw [String.length_append] at hl
  have h0 : ("" : String).length = 0 := rfl
  have ha0 : a.length = 0 := by omega
  cases a with
  | mk adata =>
    cases adata with
    | nil => rfl
    | cons c cs => simp [String.length] at ha0

/-- The detail string built by `format_detail` is never empty. -/
theorem format_detail_fst_ne (c : ℚ) (u d : String) : (format_detail c u d).1 ≠ "" := by
  unfold format_detail
  dsimp only
  split
  · exact append_ne_empty_left _ _ (append_ne_empty_left _ _ (append_ne_empty_left _ _ (by split <;> decide)))
  · exact append_ne_empty_left _ _ (append_ne_empty_left _ _ (append_ne_empty_left _ _ (by split <;> decide)))

/-- A missing or empty input series makes `latestVals` absent. -/
theorem latestVals_none_of_mem {vecs : List Vec} {v : Vec} {ad : String → Option (List Obs)}
    (hv : v ∈ vecs) (h : getData ad v.id = none) : latestVals vecs ad = none := by
  induction vecs with
  | nil => cases hv
  | cons w rest ih =>
    rcases List.mem_cons.mp hv with rfl | hv2
    · simp only [latestVals, h]
    · simp only [latestVals]
      cases hw : getData ad w.id with
      | none => rfl
      | some data =>
        dsimp only
        cases hp : pyGet data (-1) with
        | none => rfl
        | some o => rw [ih hv2]; rfl

/-- Inversion of a successful `latestVals` on a cons cell. -/
theorem latestVals_cons {v : Vec} {rest : List Vec} {ad : String → Option (List Obs)}
    {vals : List ℚ} (h : latestVals (v :: rest) ad = some vals) :
    ∃ data o tvals, getData ad v.id = some data ∧ pyGet data (-1) = some o ∧
      latestVals rest ad = some tvals ∧ vals = o.value :: tvals := by
  unfold latestVals at h
  split at h
  · exact Option.noConfusion h
  · rename_i data hw
    split at h
    · exact Option.noConfusion h
    · rename_i o hp
      cases ht : latestVals rest ad with
      | none => rw [ht] at h; exact Option.noConfusion h
      | some tvals =>
        rw [ht] at h
        injection h with h2
        exact ⟨data, o, tvals, hw, hp, rfl, h2.symm⟩

/-- A chain of three appends on a nonempty head is nonempty. -/
theorem append3_ne_empty (a b c d : String) (ha : a ≠ "") : a ++ b ++ c ++ d ≠ "" :=
  append_ne_empty_left _ _ (append_ne_empty_left _ _ (append_ne_empty_left _ _ ha))

/-- A produced share detail pair with empty text has the neutral color. -/
theorem share_detail_neutral {d : String} {td ud : List Obs} {s : ℚ} {dc : String × String}
    (h : share_yoy_detail d td ud s = some dc) (hd : dc.1 = "") : dc.2 = "neutral" := by
  unfold share_yoy_detail at h
  repeat' split at h
  any_goals exact Option.noConfusion h
  all_goals (injection h with h2; subst h2)
  all_goals first
    | rfl
    | exact absurd hd (format_detail_fst_ne _ _ _)

/-- Without a lookback index the share detail pair is empty-neutral. -/
theorem share_detail_none {d : String} {td ud : List Obs} {s : ℚ} {dc : String × String}
    (hidx : get_yoy_index td = none) (h : share_yoy_detail d td ud s = some dc) :
    dc = ("", "neutral") := by
  unfold share_yoy_detail at h
  rw [hidx] at h
  injection h with h2
  exact h2.symm

/-- A produced wage-gap detail pair with empty text has the neutral
color. -/
theorem wage_detail_neutral {d : String} {md fd : List Obs} {g : ℚ} {dc : String × String}
    (h : wage_yoy_detail d md fd g = some dc) (hd : dc.1 = "") : dc.2 = "neutral" := by
  unfold wage_yoy_detail at h
  repeat' split at h
  any_goals exact Option.noConfusion h
  all_goals (injection h with h2; subst h2)
  all_goals first
    | rfl
    | exact absurd hd (format_detail_fst_ne _ _ _)

/-! Claim theorems. -/

/-- C3: the inferred cadence is decided solely by the day gap between the
last two observation dates — a gap greater than 300 days classifies as
Annual, a gap in (60, 300] as Quarterly, and any smaller gap as Monthly. -/
theorem c3_cadence_from_last_gap (data : List Obs) (o1 o2 : Obs) (rest : List Obs)
    (h : data.reverse = o1 :: o2 :: rest) :
    (300 < daysDiff o1.date o2.date → classify data = .annual) ∧
    ((60 < daysDiff o1.date o2.date ∧ daysDiff o1.date o2.date ≤ 300) →
      classify data = .quarterly) ∧
    (daysDiff o1.date o2.date ≤ 60 → classify data = .monthly) := by
  unfold classify is_annual is_quarterly
  rw [h]
  refine ⟨fun hg => ?_, fun hg => ?_, fun hg => ?_⟩
  · simp [hg]
  · have h1 : ¬(daysDiff o1.date o2.date > 300) := by omega
    have h2 : daysDiff o1.date o2.date > 60 := hg.1
    simp [h1, h2]
  · have h1 : ¬(daysDiff o1.date o2.date > 300) := by omega
    have h2 : ¬(daysDiff o1.date o2.date > 60) := by omega
    simp [h1, h2]

/-- C3 witness: 400 days gives Annual, 90 days Quarterly, 30 days Monthly. -/
theorem c3_witness :
    classify pairAnnual = .annual ∧ classify pairQuarterly = .quarterly ∧
    classify pairMonthly = .monthly := by
  refine ⟨?_, ?_, ?_⟩
  · exact (c3_cadence_from_last_gap pairAnnual ⟨⟨2025,2,4⟩, 2⟩ ⟨⟨2024,1,1⟩, 1⟩ [] (by decide)).1
      (by decide)
  · exact (c3_cadence_from_last_gap pairQuarterly ⟨⟨2025,4,1⟩, 2⟩ ⟨⟨2025,1,1⟩, 1⟩ [] (by decide)).2.1
      (by decide)
  · exact (c3_cadence_from_last_gap pairMonthly ⟨⟨2025,12,1⟩, 2⟩ ⟨⟨2025,11,1⟩, 1⟩ [] (by decide)).2.2
      (by decide)

/-- C10: `get_yoy_index` returns -2 only with at least 2 observations,
-5 only with at least 5, -13 only with at least 13; consequently indexing
the deriving series at the returned index, and any series of length at
least its absolute value, is in bounds (never an `IndexError`). -/
theorem c10_get_yoy_index_safe (data : List Obs) (idx : Int)
    (h : get_yoy_index data = some idx) :
    ((idx = -2 ∧ 2 ≤ data.length) ∨ (idx = -5 ∧ 5 ≤ data.length) ∨
      (idx = -13 ∧ 13 ≤ data.length)) ∧
    (pyGet data idx).isSome ∧
    ∀ d2 : List Obs, idx.natAbs ≤ d2.length → (pyGet d2 idx).isSome := by
  unfold get_yoy_index at h
  have hcase : ((idx = -2 ∧ 2 ≤ data.length) ∨ (idx = -5 ∧ 5 ≤ data.length) ∨
      (idx = -13 ∧ 13 ≤ data.length)) := by
    split at h
    · split at h
      · rename_i hlen
        injection h with h2
        exact Or.inl ⟨h2.symm, hlen⟩
      · exact Option.noConfusion h
    · split at h
      · split at h
        · rename_i hlen
          injection h with h2
          exact Or.inr (Or.inl ⟨h2.symm, hlen⟩)
        · exact Option.noConfusion h
      · split at h
        · rename_i hlen
          injection h with h2
          exact Or.inr (Or.inr ⟨h2.symm, hlen⟩)
        · exact Option.noConfusion h
  refine ⟨hcase, ?_, fun d2 h2 => ?_⟩
  · rcases hcase with ⟨rfl, hl⟩ | ⟨rfl, hl⟩ | ⟨rfl, hl⟩ <;>
      exact pyGet_isSome_of data _ (by omega) (by omega)
  · rcases hcase with ⟨rfl, hl⟩ | ⟨rfl, hl⟩ | ⟨rfl, hl⟩ <;>
      exact pyGet_isSome_of d2 _ (by omega) h2

/-- C10 witness: the index computed for the concrete monthly fixture is
-13 and indexing succeeds. -/
theorem c10_witness : (pyGet noZeroData (-13)).isSome ∧
    (pyGet zeroLookbackData (-13)).isSome := by
  constructor
  · exact (c10_get_yoy_index_safe noZeroData (-13) (by decide)).2.1
  · exact (c10_get_yoy_index_safe noZeroData (-13) (by decide)).2.2 zeroLookbackData (by decide)

/-- C1 counterexample: a metric whose year-ago lookback observation
exists with value zero still gets a year-over-year comparison — the
0-growth fallback "↑ 0.0% year over year" — instead of an omitted
comparison. -/
theorem c1_counterexample :
    pyGet zeroLookbackData (-13) = some ⟨⟨2024,12,1⟩, 0⟩ ∧
    compute_level_yoy_pct cfgOne adZero =
      some ⟨"", "↑ 0.0% year over year", "positive", "2025-12"⟩ ∧
    ("↑ 0.0% year over year" : String) ≠ "" := by
  refine ⟨by decide, ?_, by decide⟩
  have h1 : getData adZero "v1" = some zeroLookbackData := by decide
  have h2 : pyGet zeroLookbackData (-1) = some ⟨⟨2025,12,1⟩, 5⟩ := by decide
  have h3 : get_yoy_index zeroLookbackData = some (-13) := by decide
  have h4 : pyGet zeroLookbackData (-13) = some ⟨⟨2024,12,1⟩, 0⟩ := by decide
  have h5 : is_annual zeroLookbackData = false := by decide
  have h6 : is_quarterly zeroLookbackData = false := by decide
  have h7 : ¬(zeroLookbackData.length < 2) := by decide
  have h8 : format_detail 0 "%" "positive" = ("↑ 0.0% year over year", "positive") := by
    norm_num [format_detail, fmt1, rndHalfEven]
    decide
  have h9 : format_period (⟨2025,12,1⟩ : Date) false = "2025-12" := by decide
  simp only [compute_level_yoy_pct, cfgOne, List.head?_cons, h1, h2, h3, h4, h5, h6,
    if_neg h7]
  norm_num [h8, h9]

/-- C1 (amended): when the year-ago lookback observation exists but has
value zero, `compute_level_yoy_pct` replaces the year-over-year growth by
the 0-growth fallback — the same fallback used for MoM/QoQ — and still
emits a non-empty comparison string. -/
theorem c1_zero_lookback_zeroed (config : Config) (all_data : String → Option (List Obs))
    (vec : Vec) (data : List Obs) (yoy_idx : Int) (lastO yoyO : Obs)
    (hv : config.vectors.head? = some vec)
    (hd : getData all_data vec.id = some data)
    (hlen : 2 ≤ data.length)
    (hlast : pyGet data (-1) = some lastO)
    (hidx : get_yoy_index data = some yoy_idx)
    (hyoy : pyGet data yoy_idx = some yoyO)
    (hz : yoyO.value = 0) :
    (compute_level_yoy_pct config all_data).map Latest.detail =
      some ((format_detail 0 "%" config.direction).1) ∧
    (format_detail 0 "%" config.direction).1 ≠ "" := by
  refine ⟨?_, format_detail_fst_ne _ _ _⟩
  have hlt : ¬(data.length < 2) := by omega
  simp only [compute_level_yoy_pct, hv, hd, hlast, hidx, hyoy, if_neg hlt]
  simp [hz]

/-- C1 witness for the amended theorem, at the concrete zero-lookback
fixture. -/
theorem c1_witness :
    (compute_level_yoy_pct cfgOne adZero).map Latest.detail =
      some ((format_detail 0 "%" cfgOne.direction).1) ∧
    (format_detail 0 "%" cfgOne.direction).1 ≠ "" :=
  c1_zero_lookback_zeroed cfgOne adZero ⟨"v1", "", none⟩ zeroLookbackData (-13)
    ⟨⟨2025,12,1⟩, 5⟩ ⟨⟨2024,12,1⟩, 0⟩ rfl (by decide) (by decide) (by decide)
    (by decide) (by decide) rfl

/-- C2: for a Monthly-cadence series (neither annual nor quarterly by the
gap rule) with at least 13 observations and no zero values, the lookback
index is the 13th-from-last observation and the computed year-over-year
detail equals `(latest / obs[-13] - 1) * 100` rendered by
`format_detail`. -/
theorem c2_monthly_yoy_thirteenth (config : Config) (all_data : String → Option (List Obs))
    (vec : Vec) (data : List Obs) (lastO lbO : Obs)
    (hv : config.vectors.head? = some vec)
    (hd : getData all_data vec.id = some data)
    (hlen : 13 ≤ data.length)
    (hann : is_annual data = false)
    (hq : is_quarterly data = false)
    (hlast : pyGet data (-1) = some lastO)
    (hlb : pyGet data (-13) = some lbO)
    (hnz : ∀ o ∈ data, o.value ≠ 0) :
    get_yoy_index data = some (-13) ∧
    (compute_level_yoy_pct config all_data).map Latest.detail =
      some ((format_detail ((lastO.value / lbO.value - 1) * 100) "%" config.direction).1) := by
  have hidx : get_yoy_index data = some (-13) := by
    unfold get_yoy_index
    rw [hann, hq]
    simp [hlen]
  refine ⟨hidx, ?_⟩
  have hz : lbO.value ≠ 0 := hnz _ (pyGet_mem hlb)
  have hlt : ¬(data.length < 2) := by omega
  simp only [compute_level_yoy_pct, hv, hd, hlast, hidx, hlb, if_neg hlt]
  simp [hz]

/-- C4 counterexample: a structured "FAILED" status in an HTTP-200
response body is not retried — the fetch returns absent immediately with
zero retry delays, even though the next attempt would have succeeded. -/
theorem c4_counterexample :
    fetch_vector oracleFailedFirst = (none, 0) ∧
    attemptResult (oracleFailedFirst 1) = some (some goodSeries) := by
  exact ⟨by decide, by decide⟩

/-- C4 (amended): network errors and non-200 statuses (and bodies that
fail to decode) wait the fixed delay and retry, up to 3 attempts: two
retryable failures followed by a success yield the series after exactly 2
delays, three retryable failures yield absent after 3 delays, and the
fetcher never raises; but an HTTP-200 response whose body is empty,
carries a "FAILED" status, or decodes to no usable points, returns
absent immediately with no retry. -/
theorem c4_retry_behavior (oracle : Nat → ApiAttempt) :
    (∀ r, attemptResult (oracle 0) = none → attemptResult (oracle 1) = none →
      attemptResult (oracle 2) = some r → fetch_vector oracle = (r, 2)) ∧
    ((∀ k, k < 3 → attemptResult (oracle k) = none) → fetch_vector oracle = (none, 3)) ∧
    (∀ r, attemptResult (oracle 0) = some r → fetch_vector oracle = (r, 0)) := by
  refine ⟨fun r h0 h1 h2 => ?_, fun hall => ?_, fun r h0 => ?_⟩
  · simp [fetch_vector, fvLoop, h0, h1, h2]
  · simp [fetch_vector, fvLoop, hall 0 (by omega), hall 1 (by omega), hall 2 (by omega)]
  · simp [fetch_vector, fvLoop, h0]

/-- C4 witness: two exceptions then a success yield the series after
exactly 2 delays; three exceptions yield absent (no exception escapes). -/
theorem c4_witness :
    fetch_vector oracleThirdOk = (some goodSeries, 2) ∧
    fetch_vector (fun _ => ApiAttempt.exn) = (none, 3) := by
  constructor
  · exact (c4_retry_behavior oracleThirdOk).1 (some goodSeries) (by decide) (by decide) (by decide)
  · exact (c4_retry_behavior (fun _ => ApiAttempt.exn)).2.1 (fun k _ => rfl)

/-- C7 counterexample: at a change of exactly zero the sentiment does not
follow the direction table's treatment of an increase — `format_detail`
with direction "negative" colors zero "positive" (an increase would be
"negative"), and `get_change_sentiment` for the positive-growth
indicator "gdp" returns "negative" at zero (an increase would be
"positive"). -/
theorem c7_counterexample :
    (format_detail 0 "pp" "negative").2 = "positive" ∧
    (format_detail 0 "pp" "negative").1 = "↑ 0.0 pp year over year" ∧
    get_change_sentiment "gdp" (some 0) = "negative" := by
  refine ⟨by norm_num [format_detail], ?_, ?_⟩
  · norm_num [format_detail, fmt1, rndHalfEven]
    decide
  · have hlt : ¬((0:ℚ) > 0) := by norm_num
    simp [get_change_sentiment, hlt, positive_growth_indicators]

/-- C7 (amended): sentiment is a pure 3-way lookup — direction
"positive" maps an increase to "positive", direction "negative" maps an
increase to "negative", "neutral" always yields "neutral", and the arrow
points up exactly when the change is ≥ 0; at a change of exactly zero,
however, `format_detail` treats zero as favorable under both directions
(inclusive comparisons `≥ 0` / `≤ 0`), while `get_change_sentiment`
treats zero as a non-increase (strict `> 0`). -/
theorem c7_sentiment_lookup (c : ℚ) (u key : String) :
    ((format_detail c u "positive").2 = if c ≥ 0 then "positive" else "negative") ∧
    ((format_detail c u "negative").2 = if c ≤ 0 then "positive" else "negative") ∧
    ((format_detail c u "neutral").2 = "neutral") ∧
    (∃ rest : String, (format_detail c u "positive").1 =
      (if c ≥ 0 then "↑" else "↓") ++ " " ++ rest) ∧
    (key ∈ positive_growth_indicators →
      get_change_sentiment key (some c) = if 0 < c then "positive" else "negative") ∧
    (key ∈ negative_growth_indicators →
      get_change_sentiment key (some c) = if 0 < c then "negative" else "positive") ∧
    (key ∈ neutral_indicators → get_change_sentiment key (some c) = "neutral") ∧
    get_change_sentiment key none = "neutral" := by
  refine ⟨by simp [format_detail], by simp [format_detail], by simp [format_detail],
    ?_, fun h => ?_, fun h => ?_, fun h => ?_, rfl⟩
  · refine ⟨fmt1 |c| ++ (if u = "pp" then " pp year over year" else "% year over year"), ?_⟩
    simp only [format_detail]
    split <;> simp [String.append_assoc]
  · simp [get_change_sentiment, h]
  · have h1 : key ∉ positive_growth_indicators := by
      simp [negative_growth_indicators] at h
      rcases h with rfl | rfl | rfl | rfl | rfl | rfl <;> decide
    simp [get_change_sentiment, h, h1]
  · have h1 : key ∉ positive_growth_indicators := by
      simp [neutral_indicators] at h
      rcases h with rfl|rfl|rfl|rfl|rfl|rfl|rfl|rfl|rfl|rfl <;> decide
    have h2 : key ∉ negative_growth_indicators := by
      simp [neutral_indicators] at h
      rcases h with rfl|rfl|rfl|rfl|rfl|rfl|rfl|rfl|rfl|rfl <;> decide
    simp [get_change_sentiment, h, h1, h2]

/-- C7 witness: a strictly positive change through both lookup tables. -/
theorem c7_witness :
    (format_detail 3 "pp" "positive").2 = (if (3:ℚ) ≥ 0 then "positive" else "negative") ∧
    get_change_sentiment "inflation" (some 3) =
      (if (0:ℚ) < 3 then "negative" else "positive") :=
  ⟨(c7_sentiment_lookup 3 "pp" "inflation").1,
   (c7_sentiment_lookup 3 "pp" "inflation").2.2.2.2.2.1 (by decide)⟩

/-- C9 counterexample: in `read_official_data` a single non-numeric value
row is not dropped — it makes the whole metric absent (the same rows
without the malformed one produce a result), while `read_chart_history`
does drop exactly that row. -/
theorem c9_counterexample :
    read_official_data indRate rowsBadMiddle = none ∧
    read_official_data indRate rowsGood =
      some ⟨"2025-12-01", "2025-12", some 6, none, 6⟩ ∧
    read_chart_history rowsBadMiddle =
      [⟨"2025-10-01", 5⟩, ⟨"2025-12-01", 6⟩] := by
  exact ⟨by decide, by decide, by decide⟩

/-- C9 (amended): `read_chart_history` drops a malformed row (missing
date, blank value, or non-numeric value) silently, leaving the rest of
the series unaffected; `read_official_data` filters out only rows with
missing/blank values, and a non-numeric value reaching the computation
(e.g. in the latest kept row) makes the whole metric absent. -/
theorem c9_malformed_row_scope :
    (∀ (pre post : List CsvRow) (row : CsvRow), chartRow row = none →
      read_chart_history (pre ++ row :: post) = read_chart_history (pre ++ post)) ∧
    (∀ (ind : Indicator) (rowsIn : List CsvRow) (latest : CsvRow) (lvs : String),
      pyGet (rowsIn.filter rowKept) (-1) = some latest →
      latest.value = some lvs → pyFloat lvs = none →
      read_official_data ind rowsIn = none) := by
  constructor
  · intro pre post row h
    simp [read_chart_history, List.filterMap_append, h]
  · intro ind rowsIn latest lvs h1 h2 h3
    simp only [read_official_data, h1, h2, h3]

/-- C9 witness: dropping a malformed middle row, and a non-numeric latest
value aborting the metric. -/
theorem c9_witness :
    read_chart_history ([⟨some "2025-10-01", some "5"⟩] ++
      (⟨some "2025-11-01", some "abc"⟩ : CsvRow) :: [⟨some "2025-12-01", some "6"⟩]) =
      read_chart_history ([⟨some "2025-10-01", some "5"⟩] ++ [⟨some "2025-12-01", some "6"⟩]) ∧
    read_official_data indRate rowsBadLatest = none := by
  constructor
  · exact (c9_malformed_row_scope).1 [⟨some "2025-10-01", some "5"⟩]
      [⟨some "2025-12-01", some "6"⟩] ⟨some "2025-11-01", some "abc"⟩ (by decide)
  · exact (c9_malformed_row_scope).2 indRate rowsBadLatest
      ⟨some "2025-12-01", some "abc"⟩ "abc" (by decide) rfl (by decide)

/-- C5: `compute_combined_rate` returns the sum of the numerator-role
latest values over the sum of the denominator-role latest values, times
100; it returns absent — never an exception — when any required input
series is missing or empty, or when the denominator sum is zero. -/
theorem c5_combined_rate (config : Config) (ad : String → Option (List Obs)) :
    (∀ (nums dens : List ℚ),
      latestVals (config.vectors.filter (fun v => v.role = some "numerator")) ad = some nums →
      latestVals (config.vectors.filter (fun v => v.role = some "denominator")) ad = some dens →
      config.vectors.filter (fun v => v.role = some "numerator") ≠ [] →
      config.vectors.filter (fun v => v.role = some "denominator") ≠ [] →
      dens.sum ≠ 0 →
      (compute_combined_rate config ad).map Latest.value =
        some (config.fmt ((nums.sum / dens.sum) * 100))) ∧
    (∀ v, v ∈ config.vectors.filter (fun v => v.role = some "numerator") ++
        config.vectors.filter (fun v => v.role = some "denominator") →
      getData ad v.id = none → compute_combined_rate config ad = none) ∧
    (∀ (nums dens : List ℚ),
      latestVals (config.vectors.filter (fun v => v.role = some "numerator")) ad = some nums →
      latestVals (config.vectors.filter (fun v => v.role = some "denominator")) ad = some dens →
      dens.sum = 0 → compute_combined_rate config ad = none) := by
  refine ⟨fun nums dens hn hd hne1 hne2 hz => ?_, fun v hv hnone => ?_,
    fun nums dens hn hd hzero => ?_⟩
  · obtain ⟨v0, vrest, hv0⟩ := List.exists_cons_of_ne_nil hne1
    rw [hv0] at hn
    obtain ⟨data0, o0, tvals, hgd, hpg, _, _⟩ := latestVals_cons hn
    simp only [compute_combined_rate, hv0, hn, hd, if_neg hz, List.head?_cons, hgd, hpg]
    rw [if_neg (by simp [hne2])]
    rfl
  · rcases List.mem_append.mp hv with hmem | hmem
    · have hnum := latestVals_none_of_mem hmem hnone
      simp only [compute_combined_rate]
      split
      · rfl
      · rw [hnum]
    · have hden := latestVals_none_of_mem hmem hnone
      simp only [compute_combined_rate]
      split
      · rfl
      · rw [hden]
        cases latestVals (config.vectors.filter (fun v => v.role = some "numerator")) ad <;> rfl
  · simp only [compute_combined_rate]
    split
    · rfl
    · rw [hn, hd]
      simp [hzero]

/-- C5 witness: numerator latests [10, 5, 2] and denominator latests
[50, 25, 10] give the rate `(17/85)*100 = 20`. -/
theorem c5_witness :
    (compute_combined_rate cfgCombined adCombined).map Latest.value =
      some (cfgCombined.fmt ((([10, 5, 2] : List ℚ).sum / ([50, 25, 10] : List ℚ).sum) * 100)) ∧
    (([10, 5, 2] : List ℚ).sum / ([50, 25, 10] : List ℚ).sum) * 100 = 20 := by
  constructor
  · exact (c5_combined_rate cfgCombined adCombined).1 [10, 5, 2] [50, 25, 10]
      (by decide) (by decide) (by decide) (by decide) (by norm_num)
  · norm_num

/-- C6 counterexample: with a monthly first series and a quarterly second
series, `compute_composite_avg` indexes the second series at the FIRST
series' lookback index (-13, value 0) instead of the second series' own
independently-aligned index (-5, value 4): the code's detail is
"↑ 4.0 pp year over year" whereas independent alignment (prev average
(10 + 4)/2 = 7 against average 9) would give "↑ 2.0 pp year over year". -/
theorem c6_counterexample :
    compute_composite_avg cfgComposite adComposite =
      some ⟨"", "↑ 4.0 pp year over year", "positive", "2025-12"⟩ ∧
    get_yoy_index w2Data = some (-5) ∧
    pyGet w2Data (-5) = some ⟨⟨2024,10,1⟩, 4⟩ ∧
    (format_detail ((9 : ℚ) - 7) "pp" "positive").1 = "↑ 2.0 pp year over year" ∧
    ("↑ 4.0 pp year over year" : String) ≠ "↑ 2.0 pp year over year" := by
  refine ⟨?_, by decide, by decide, ?_, by decide⟩
  · have h1 : latestVals [⟨"w1", "", none⟩, ⟨"w2", "", none⟩] adComposite =
        some [10, 8] := by decide
    have h2 : getData adComposite "w1" = some w1Data := by decide
    have h3 : get_yoy_index w1Data = some (-13) := by decide
    have h4 : prevVals [⟨"w1", "", none⟩, ⟨"w2", "", none⟩] adComposite (-13) =
        some [10, 0] := by decide
    have h5 : pyGet w1Data (-1) = some ⟨⟨2025,12,1⟩, 10⟩ := by decide
    have h6 : is_quarterly w1Data = false := by decide
    have h8 : format_detail 4 "pp" "positive" =
        ("↑ 4.0 pp year over year", "positive") := by
      norm_num [format_detail, fmt1, rndHalfEven]
      decide
    simp only [compute_composite_avg, cfgComposite, h1, h2, h3, h4, h5, h6,
      List.head?_cons]
    norm_num [dotZip, List.replicate, List.zipWith, List.sum_cons, List.sum_nil, h8,
      format_period, pad2]
    decide
  · norm_num [format_detail, fmt1, rndHalfEven]
    decide

/-- C6 (amended): `compute_composite_avg` returns the weighted average of
the input series' latest values (weights the latest values of the
optional parallel weight series, equal weights when absent), and its
year-over-year detail is the pp change of that weighted average against
the weighted average of the inputs taken at the FIRST series' lookback
index, applied to every input series that is long enough (not at each
series' own independently-aligned index). -/
theorem c6_composite_shared_index (config : Config) (ad : String → Option (List Obs))
    (values weights prevs : List ℚ) (v0 : Vec) (ref_data : List Obs) (idx : Int) (lastR : Obs)
    (hvals : latestVals config.vectors ad = some values)
    (hw : (match config.population_vectors with
           | some pvs => latestVals pvs ad
           | none => some (List.replicate values.length 1)) = some weights)
    (htw : weights.sum ≠ 0)
    (hv0 : config.vectors.head? = some v0)
    (href : getData ad v0.id = some ref_data)
    (hidx : get_yoy_index ref_data = some idx)
    (hprev : prevVals config.vectors ad idx = some prevs)
    (hne : prevs ≠ [])
    (hlast : pyGet ref_data (-1) = some lastR) :
    compute_composite_avg config ad = some
      ⟨config.fmt (dotZip values weights / weights.sum),
       (format_detail (dotZip values weights / weights.sum -
          dotZip prevs weights / weights.sum) "pp" config.direction).1,
       (format_detail (dotZip values weights / weights.sum -
          dotZip prevs weights / weights.sum) "pp" config.direction).2,
       format_period lastR.date (is_quarterly ref_data)⟩ := by
  simp only [compute_composite_avg, hvals, hw, if_neg htw, hv0, href, hidx, hprev,
    hlast, if_pos hne]

/-- C6 witness for the amended theorem, at the concrete two-series
fixture (shared index -13 applied to both series). -/
theorem c6_witness :
    compute_composite_avg cfgComposite adComposite = some
      ⟨cfgComposite.fmt (dotZip [10, 8] [1, 1] / ([1, 1] : List ℚ).sum),
       (format_detail (dotZip [10, 8] [1, 1] / ([1, 1] : List ℚ).sum -
          dotZip [10, 0] [1, 1] / ([1, 1] : List ℚ).sum) "pp" cfgComposite.direction).1,
       (format_detail (dotZip [10, 8] [1, 1] / ([1, 1] : List ℚ).sum -
          dotZip [10, 0] [1, 1] / ([1, 1] : List ℚ).sum) "pp" cfgComposite.direction).2,
       format_period (⟨2025,12,1⟩ : Date) (is_quarterly w1Data)⟩ :=
  c6_composite_shared_index cfgComposite adComposite [10, 8] [1, 1] [10, 0]
    ⟨"w1", "", none⟩ w1Data (-13) ⟨⟨2025,12,1⟩, 10⟩
    (by decide) (by decide) (by norm_num) (by decide) (by decide) (by decide)
    (by decide) (by decide) (by decide)

/-- C8: every result any compute strategy produces satisfies the joint
invariant — an empty detail string always comes with the "neutral"
color (equivalently, a non-neutral sentiment never accompanies an empty
comparison text); and when the lookback needed for the comparison does
not exist (`get_yoy_index` is `none`), `compute_share_pct` produces
exactly the empty detail with the "neutral" color. -/
theorem c8_detail_color_joint (config : Config) (ad : String → Option (List Obs)) (r : Latest) :
    (compute_rate_yoy_pp config ad = some r → r.detail = "" → r.detail_color = "neutral") ∧
    (compute_level_yoy_pct config ad = some r → r.detail = "" → r.detail_color = "neutral") ∧
    (compute_level_qoq_pct config ad = some r → r.detail = "" → r.detail_color = "neutral") ∧
    (compute_count_yoy_pct config ad = some r → r.detail = "" → r.detail_color = "neutral") ∧
    (compute_share_pct config ad = some r → r.detail = "" → r.detail_color = "neutral") ∧
    (compute_wage_gap config ad = some r → r.detail = "" → r.detail_color = "neutral") ∧
    (compute_composite_avg config ad = some r → r.detail = "" → r.detail_color = "neutral") ∧
    (compute_sum_yoy_pct config ad = some r → r.detail = "" → r.detail_color = "neutral") ∧
    (compute_combined_rate config ad = some r → r.detail = "" → r.detail_color = "neutral") ∧
    (∀ total_data, lookupData ad (lastLabeled config.vectors "total_exports") = some total_data →
      get_yoy_index total_data = none → compute_share_pct config ad = some r →
      r.detail = "" ∧ r.detail_color = "neutral") := by
  refine ⟨?_, ?_, ?_, ?_, ?_, ?_, ?_, ?_, ?_, ?_⟩
  · intro h hd
    unfold compute_rate_yoy_pp at h
    dsimp only at h
    repeat' split at h
    any_goals exact Option.noConfusion h
    all_goals (injection h with h2; subst h2; dsimp only at hd)
    all_goals exact absurd hd (format_detail_fst_ne _ _ _)
  · intro h hd
    unfold compute_level_yoy_pct at h
    dsimp only at h
    repeat' split at h
    any_goals exact Option.noConfusion h
    all_goals (injection h with h2; subst h2; dsimp only at hd)
    all_goals exact absurd hd (format_detail_fst_ne _ _ _)
  · intro h hd
    unfold compute_level_qoq_pct at h
    dsimp only at h
    repeat' split at h
    any_goals exact Option.noConfusion h
    all_goals (injection h with h2; subst h2; dsimp only at hd)
    all_goals exact absurd hd (append3_ne_empty _ _ _ _ (by decide))
  · intro h hd
    unfold compute_count_yoy_pct compute_level_yoy_pct at h
    dsimp only at h
    repeat' split at h
    any_goals exact Option.noConfusion h
    all_goals (injection h with h2; subst h2; dsimp only at hd)
    all_goals exact absurd hd (format_detail_fst_ne _ _ _)
  · intro h hd
    unfold compute_share_pct at h
    dsimp only at h
    repeat' split at h
    any_goals exact Option.noConfusion h
    all_goals (injection h with h2; subst h2; dsimp only at hd ⊢)
    all_goals exact share_detail_neutral (by assumption) hd
  · intro h hd
    unfold compute_wage_gap at h
    dsimp only at h
    repeat' split at h
    any_goals exact Option.noConfusion h
    all_goals (injection h with h2; subst h2; dsimp only at hd ⊢)
    all_goals exact wage_detail_neutral (by assumption) hd
  · intro h hd
    unfold compute_composite_avg at h
    dsimp only at h
    repeat' split at h
    any_goals exact Option.noConfusion h
    all_goals (injection h with h2; subst h2; dsimp only at hd ⊢)
    all_goals first
      | rfl
      | exact absurd hd (format_detail_fst_ne _ _ _)
  · intro h hd
    unfold compute_sum_yoy_pct at h
    dsimp only at h
    repeat' split at h
    any_goals exact Option.noConfusion h
    all_goals (injection h with h2; subst h2; dsimp only at hd ⊢)
    all_goals first
      | rfl
      | exact absurd hd (format_detail_fst_ne _ _ _)
  · intro h hd
    unfold compute_combined_rate at h
    dsimp only at h
    repeat' split at h
    any_goals exact Option.noConfusion h
    all_goals (injection h with h2; subst h2; dsimp only at hd ⊢)
    all_goals first
      | rfl
      | exact absurd hd (format_detail_fst_ne _ _ _)
  · intro td hlookup hidx h
    unfold compute_share_pct at h
    dsimp only at h
    rw [hlookup] at h
    cases hus : lookupData ad (lastLabeled config.vectors "us_exports") with
    | none => rw [hus] at h; exact Option.noConfusion h
    | some ud =>
      rw [hus] at h
      dsimp only at h
      cases hlt : pyGet td (-1) with
      | none => rw [hlt] at h; exact Option.noConfusion h
      | some lastT =>
        rw [hlt] at h
        cases hlu : pyGet ud (-1) with
        | none => rw [hlu] at h; exact Option.noConfusion h
        | some lastU =>
          rw [hlu] at h
          dsimp only at h
          by_cases hz : lastT.value = 0
          · rw [if_pos hz] at h
            exact Option.noConfusion h
          · rw [if_neg hz] at h
            cases hdc : share_yoy_detail config.direction td ud
                ((1 - lastU.value / lastT.value) * 100) with
            | none => rw [hdc] at h; exact Option.noConfusion h
            | some dc =>
              rw [hdc] at h
              have hpair := share_detail_none hidx hdc
              subst hpair
              injection h with h2
              subst h2
              exact ⟨rfl, rfl⟩

/-- C8 witness: a concrete share metric whose two series are too short
for any lookback produces the empty detail jointly with the neutral
color. -/
theorem c8_witness :
    (⟨"", "", "neutral", "2025-12"⟩ : Latest).detail = "" ∧
    (⟨"", "", "neutral", "2025-12"⟩ : Latest).detail_color = "neutral" :=
  (c8_detail_color_joint cfgShare adShare ⟨"", "", "neutral", "2025-12"⟩).2.2.2.2.2.2.2.2.2
    (shortData 180 200) (by decide) (by decide) (by decide)

/-- C2 witness at a concrete 13-observation monthly series with latest 2
and 13th-from-last 1. -/
theorem c2_witness :
    get_yoy_index noZeroData = some (-13) ∧
    (compute_level_yoy_pct cfgOne adNoZero).map Latest.detail =
      some ((format_detail (((2 : ℚ) / 1 - 1) * 100) "%" cfgOne.direction).1) :=
  c2_monthly_yoy_thirteenth cfgOne adNoZero ⟨"v1", "", none⟩ noZeroData
    ⟨⟨2025,12,1⟩, 2⟩ ⟨⟨2024,12,1⟩, 1⟩ rfl (by decide) (by decide) (by decide)
    (by decide) (by decide) (by decide) (by decide)

end Site
